import Mathlib

/-!
# A shallow embedding of the `gratefulset` controller core

This file embeds the Rust sources of `owen-d/gratefulset` (`src/gs.rs`,
`src/gsp.rs`, `src/manager.rs`) in Lean 4 and proves or refutes the frozen
claims about them.

Modelling conventions:
* Rust `Option<T>` is `Option T`; `i32` is `Int` (with explicit 32-bit
  wrapping where an overflow is reachable); `String` is `String`.
* `BTreeMap<String, String>` is modelled as its entry list
  `List (String × String)`; every construction in the sources inserts
  pairwise-distinct keys, so the list determines the map.  Inputs are read
  under the convention that the list is the map's key-ordered entry list.
* Rust's `DefaultHasher` is an unspecified but fixed function of the stream
  of values fed to it by `Hash::hash` calls.  We reify that stream as a
  `List HTok` (`hashTokens`, mirroring `impl Hash for ImmutableSts` call by
  call) and parametrise every statement over the hash function
  `H : List HTok → Nat`.  Equal token streams give equal checksums for any
  `H`, which is the only direction the development needs.
* Each `async` reconciler is embedded as a pure function from the observed
  world (the values its API reads would return) to the list of mutations it
  issues, in program order, together with the returned requeue duration in
  seconds (`Option Nat`); a propagated `?` error is `Except.error`.
-/

set_option autoImplicit false

namespace GratefulSetModel

/-! ## Kubernetes data model (the fields the sources touch) -/

/-- `k8s_openapi ... OwnerReference`; `Default` gives empty strings. -/
structure OwnerReference where
  api_version : String := ""
  kind : String := ""
  name : String := ""
  uid : String := ""
  deriving DecidableEq

/-- `k8s_openapi ... ObjectMeta`, restricted to the fields the sources read,
write or hash.  `Default` is all-`none`. -/
structure ObjectMeta where
  annotations : Option (List (String × String)) := none
  cluster_name : Option String := none
  deletion_grace_period_seconds : Option Int := none
  finalizers : Option (List String) := none
  generate_name : Option String := none
  labels : Option (List (String × String)) := none
  name : Option String := none
  namespace_ : Option String := none
  owner_references : Option (List OwnerReference) := none
  deriving DecidableEq

/-- `kube::api::Meta::name`: the object's metadata name (present on every
object the reconcilers handle). -/
def metaNameOf (m : ObjectMeta) : String := m.name.getD ""

/-- `LabelSelectorRequirement { key, operator, values }`. -/
structure LabelSelectorRequirement where
  key : String := ""
  operator : String := ""
  values : Option (List String) := none
  deriving DecidableEq

/-- `LabelSelector { match_expressions, match_labels }`. -/
structure LabelSelector where
  match_expressions : Option (List LabelSelectorRequirement) := none
  match_labels : Option (List (String × String)) := none
  deriving DecidableEq

/-- `VolumeMount`, restricted to the fields `with_lock` sets. -/
structure VolumeMount where
  mount_path : String := ""
  name : String := ""
  deriving DecidableEq

/-- `ConfigMapVolumeSource`; only `name` is ever set. -/
structure ConfigMapVolumeSource where
  name : Option String := none
  deriving DecidableEq

/-- `Volume`; `Default` leaves `name` as the empty string. -/
structure Volume where
  name : String := ""
  config_map : Option ConfigMapVolumeSource := none
  deriving DecidableEq

/-- `Container`, restricted to the fields `with_lock` sets. -/
structure Container where
  name : String := ""
  image : Option String := none
  command : Option (List String) := none
  args : Option (List String) := none
  working_dir : Option String := none
  volume_mounts : Option (List VolumeMount) := none
  deriving DecidableEq

/-- `PodSpec`: the two fields `with_lock` rewrites plus the mandatory
`containers` carried through by `..p`. -/
structure PodSpec where
  containers : List Container := []
  init_containers : Option (List Container) := none
  volumes : Option (List Volume) := none
  deriving DecidableEq

/-- `PodTemplateSpec`. -/
structure PodTemplateSpec where
  metadata : Option ObjectMeta := none
  spec : Option PodSpec := none
  deriving DecidableEq

/-- `ResourceRequirements`; `Quantity` values are carried as their canonical
string (`v.0.as_str()` is what the hasher consumes). -/
structure ResourceRequirements where
  limits : Option (List (String × String)) := none
  requests : Option (List (String × String)) := none
  deriving DecidableEq

/-- `PersistentVolumeClaimSpec`, restricted to the hashed fields. -/
structure PersistentVolumeClaimSpec where
  access_modes : Option (List String) := none
  resources : Option ResourceRequirements := none
  selector : Option LabelSelector := none
  storage_class_name : Option String := none
  volume_mode : Option String := none
  volume_name : Option String := none
  deriving DecidableEq

/-- `PersistentVolumeClaim` as consumed by the hasher. -/
structure PersistentVolumeClaim where
  metadata : ObjectMeta := {}
  spec : Option PersistentVolumeClaimSpec := none
  deriving DecidableEq

/-- `RollingUpdateStatefulSetStrategy`. -/
structure RollingUpdateStatefulSetStrategy where
  partition : Option Int := none
  deriving DecidableEq

/-- `StatefulSetUpdateStrategy`. -/
structure StatefulSetUpdateStrategy where
  rolling_update : Option RollingUpdateStatefulSetStrategy := none
  type_ : Option String := none
  deriving DecidableEq

/-- `k8s_openapi::api::apps::v1::StatefulSetSpec` — all eight fields, so
"differs only in `replicas` / `template` / `update_strategy`" is statable. -/
structure StatefulSetSpec where
  pod_management_policy : Option String := none
  replicas : Option Int := none
  revision_history_limit : Option Int := none
  selector : LabelSelector := {}
  service_name : String := ""
  template : PodTemplateSpec := {}
  update_strategy : Option StatefulSetUpdateStrategy := none
  volume_claim_templates : Option (List PersistentVolumeClaim) := none
  deriving DecidableEq

/-- `StatefulSetStatus`, restricted to the fields the reconcilers read. -/
structure StatefulSetStatus where
  current_replicas : Option Int := none
  ready_replicas : Option Int := none
  replicas : Int := 0
  updated_replicas : Option Int := none
  deriving DecidableEq

/-- `StatefulSet` object as returned by `sts.get`. -/
structure StatefulSet where
  metadata : ObjectMeta := {}
  spec : Option StatefulSetSpec := none
  status : Option StatefulSetStatus := none
  deriving DecidableEq

/-- `ConfigMap`. -/
structure ConfigMap where
  metadata : ObjectMeta := {}
  data : Option (List (String × String)) := none
  deriving DecidableEq

/-! ## The custom resources (`gs.rs`, `gsp.rs`) -/

/-- `GratefulSetPoolSpec { name, sts_spec }` (`gsp.rs:39`). -/
structure GratefulSetPoolSpec where
  name : String := ""
  sts_spec : StatefulSetSpec := {}
  deriving DecidableEq

/-- `GratefulSetPoolStatus { sts_status, scale_down_records }` (`gsp.rs:133`). -/
structure GratefulSetPoolStatus where
  sts_status : StatefulSetStatus := {}
  scale_down_records : List (Int × String) := []
  deriving DecidableEq

/-- The `GratefulSetPool` custom object generated by `kube_derive`. -/
structure GratefulSetPool where
  metadata : ObjectMeta := {}
  spec : GratefulSetPoolSpec := {}
  status : Option GratefulSetPoolStatus := none
  deriving DecidableEq

/-- `GratefulSetSpec { name, sts_spec }` (`gs.rs:33`). -/
structure GratefulSetSpec where
  name : String := ""
  sts_spec : StatefulSetSpec := {}
  deriving DecidableEq

/-- `GratefulSetStatus` (`gs.rs:67`); unread by the reconcilers. -/
structure GratefulSetStatus where
  current_replicas : Option Int := none
  ready_replicas : Option Int := none
  replicas : Int := 0
  updated_replicas : Option Int := none
  deriving DecidableEq

/-- The `GratefulSet` custom object. -/
structure GratefulSet where
  metadata : ObjectMeta := {}
  spec : GratefulSetSpec := {}
  status : Option GratefulSetStatus := none
  deriving DecidableEq

/-! ## RevisionHasher (`impl Hash for ImmutableSts`, `gsp.rs:141-209`)

Every `x.hash(state)` call in the source appends tokens here, in source
order.  `HTok.tag` carries `Option` discriminants and collection lengths, so
distinct streams of `Hash` calls yield distinct token lists. -/

/-- One value fed to the hasher. -/
inductive HTok where
  | str (s : String)
  | int (n : Int)
  | tag (n : Nat)
  deriving DecidableEq

/-- A hashed `String`. -/
def tokStr (s : String) : List HTok := [.str s]

/-- A hashed `i32` / `i64`. -/
def tokInt (n : Int) : List HTok := [.int n]

/-- A hashed `Option<T>`: discriminant, then the payload if present. -/
def tokOpt {α : Type} (f : α → List HTok) : Option α → List HTok
  | none => [.tag 0]
  | some a => .tag 1 :: f a

/-- A hashed `Vec<T>`: length prefix, then the elements. -/
def tokList {α : Type} (f : α → List HTok) (xs : List α) : List HTok :=
  .tag xs.length :: (xs.map f).flatten

/-- A hashed `BTreeMap<String, String>`: length prefix, then the entries in
key order. -/
def tokMap (m : List (String × String)) : List HTok :=
  .tag m.length :: (m.map fun kv => tokStr kv.1 ++ tokStr kv.2).flatten

/-- Tokens of one `LabelSelectorRequirement` as hashed at `gsp.rs:147-149`
and `gsp.rs:184-187`: `key`, `operator`, `values`. -/
def tokLabelReq (r : LabelSelectorRequirement) : List HTok :=
  tokStr r.key ++ tokStr r.operator ++ tokOpt (tokList tokStr) r.values

/-- Tokens of one `volume_claim_template` as hashed at `gsp.rs:156-196`.
Note the source bug at `gsp.rs:174`: the second resource loop binds `reqs`
to `r.limits`, so `limits` is hashed twice and `requests` never is. -/
def tokPvc (x : PersistentVolumeClaim) : List HTok :=
  tokOpt tokMap x.metadata.annotations
    ++ tokOpt tokStr x.metadata.cluster_name
    ++ tokOpt tokInt x.metadata.deletion_grace_period_seconds
    ++ tokOpt (tokList tokStr) x.metadata.finalizers
    ++ tokOpt tokStr x.metadata.generate_name
    ++ tokOpt tokMap x.metadata.labels
    ++ tokOpt tokStr x.metadata.name
    ++ tokOpt tokStr x.metadata.namespace_
    ++ match x.spec with
       | none => []
       | some spec =>
         tokOpt (tokList tokStr) spec.access_modes
           ++ (match spec.resources with
               | none => []
               | some r =>
                 (match r.limits with
                  | none => []
                  | some l => (l.map fun kv => tokStr kv.1 ++ tokStr kv.2).flatten)
                   ++ (match r.limits with
                       | none => []
                       | some l =>
                         (l.map fun kv => tokStr kv.1 ++ tokStr kv.2).flatten))
           ++ (match spec.selector with
               | none => []
               | some ls =>
                 (match ls.match_expressions with
                  | none => []
                  | some xs => (xs.map tokLabelReq).flatten)
                   ++ tokOpt tokMap ls.match_labels)
           ++ tokOpt tokStr spec.storage_class_name
           ++ tokOpt tokStr spec.volume_mode
           ++ tokOpt tokStr spec.volume_name

/-- The full token stream of `impl<'a> Hash for ImmutableSts<'a>`
(`gsp.rs:142-199`), in source order. -/
def hashTokens (s : StatefulSetSpec) : List HTok :=
  tokOpt tokStr s.pod_management_policy
    ++ tokOpt tokInt s.revision_history_limit
    ++ (match s.selector.match_expressions with
        | none => []
        | some xs => (xs.map tokLabelReq).flatten)
    ++ tokOpt tokMap s.selector.match_labels
    ++ tokStr s.service_name
    ++ match s.volume_claim_templates with
       | none => []
       | some xs => (xs.map tokPvc).flatten

/-- `ImmutableSts::checksum` (`gsp.rs:204-208`): run the hasher over the
token stream and keep the low 16 bits (`s.finish() as u16`).  `H` stands for
`DefaultHasher`, an unspecified but fixed function of the stream. -/
def checksum (H : List HTok → Nat) (s : StatefulSetSpec) : Nat :=
  H (hashTokens s) % 65536

/-- `{:x}` formatting of the `u16` checksum: lowercase hex, no padding. -/
def hexStr (n : Nat) : String := String.mk (Nat.toDigits 16 n)

/-! ## Pool-spec operations (`gsp.rs:44-131`) -/

/-- Two's-complement wrap-around of `i32` arithmetic. -/
def wrap32 (z : Int) : Int := (z + 2 ^ 31) % 2 ^ 32 - 2 ^ 31

/-- `without_replicas` (`gsp.rs:44-48`): the spec with `replicas` cleared. -/
def without_replicas (spec : StatefulSetSpec) : StatefulSetSpec :=
  { spec with replicas := none }

/-- `GratefulSetPoolSpec::delta_replicas` (`gsp.rs:51-53`):
`replicas.map(|x| max(0, x + n))`. -/
def delta_replicas (n : Int) (s : GratefulSetPoolSpec) : GratefulSetPoolSpec :=
  { s with
    sts_spec :=
      { s.sts_spec with
        replicas := s.sts_spec.replicas.map fun x => max 0 (wrap32 (x + n)) } }

/-- `GratefulSetPoolSpec::configmap_name` (`gsp.rs:96-98`). -/
def configmap_name (s : GratefulSetPoolSpec) : String := s.name ++ "-lock"

/-- `GratefulSetPoolSpec::lock_dir` (`gsp.rs:100-102`). -/
def lock_dir : String := "/locks"

/-- `GratefulSetPoolSpec::lock_volume` (`gsp.rs:104-106`):
`format!("{}-locks", "pikach.us")`. -/
def lock_volume : String := "pikach.us" ++ "-locks"

/-- The shell snippet of the `gsp-unlocker` init-container (`gsp.rs:68`). -/
def unlockerScript : String :=
  "echo ${HOSTNAME} | sed -r 's/.*-([0-9])+$/\\1/' | xargs -n 1 -I \x7b\x7d -- [ -e \x7b\x7d ] && echo successfully acquired lock at $$(date -u) || (echo failure && exit 1)"

/-- `GratefulSetPoolSpec::with_lock` (`gsp.rs:56-94`): clone the pool's
StatefulSet spec and, when a pod spec is present, push the `gsp-unlocker`
init-container and a lock volume.  Note the pushed `Volume` keeps the
defaulted empty `name` and points its ConfigMap source at `lock_volume()`
(`gsp.rs:80-86`). -/
def with_lock (s : GratefulSetPoolSpec) : StatefulSetSpec :=
  { s.sts_spec with
    template :=
      { s.sts_spec.template with
        spec := s.sts_spec.template.spec.map fun p =>
          let inits := p.init_containers.getD [] ++
            [{ name := "gsp-unlocker"
               image := some "alpine:3.7"
               command := some ["/bin/sh"]
               args := some ["-c", unlockerScript]
               working_dir := some lock_dir
               volume_mounts := some [{ mount_path := lock_dir, name := lock_volume }] }]
          let vols := p.volumes.getD [] ++
            [{ name := ""
               config_map := some { name := some lock_volume } }]
          { p with init_containers := some inits, volumes := some vols } } }

/-- `GratefulSetPoolSpec::configmap` (`gsp.rs:109-130`): the lease ConfigMap
with one `(ordinal, ordinal)` entry per `0..replicas.unwrap_or(1)`. -/
def configmap (s : GratefulSetPoolSpec) (ns : String) : ConfigMap :=
  { data := some (((List.range (s.sts_spec.replicas.getD 1).toNat).map
        fun x => ((Int.ofNat x).repr, (Int.ofNat x).repr)))
    metadata :=
      { name := some (configmap_name s)
        namespace_ := some ns
        owner_references := some [{ kind := "GratefulSetPool" }]
        labels := some [("owner.pikach.us", s.name)] } }

/-! ## `GratefulSetSpec::pool` (`gs.rs:39-64`) -/

/-- `GratefulSetSpec::pool` parametrised by the hasher `H`: build the pool
named `format!("{}-{:x}", self.name, checksum)`, then set the owner
reference's `kind` and the label `owner.pikach.us` — whose value is the
local `name` just built, i.e. the *pool* name. -/
def pool (H : List HTok → Nat) (s : GratefulSetSpec) : GratefulSetPool :=
  let name := s.name ++ "-" ++ hexStr (checksum H s.sts_spec)
  { metadata :=
      { name := some name
        owner_references := some [{ kind := "GratefulSet" }]
        labels := some [("owner.pikach.us", name)] }
    spec := { name := "", sts_spec := s.sts_spec }
    status := none }

/-- Modelled from the spec: `GratefulSetPoolSpec::without_replicas`, called
at `gs.rs:131` / `manager.rs:74`, has no definition under `src/`.  The spec
(§4.3, row 2: "only differs in replica count from GS.template") compares the
pool's StatefulSet template with `replicas` cleared, i.e. `without_replicas`
applied to the pool's `sts_spec`. -/
def poolWithoutReplicas (s : GratefulSetPoolSpec) : StatefulSetSpec :=
  without_replicas s.sts_spec

/-! ## SetReconciler (`gs.rs::reconcile`, `gs.rs:82-240`)

The embedding takes the observed world as arguments: `listed` is the pool
list the label-selector LIST returns.  The result is the list of mutations
issued, in program order, and the `requeue_after` seconds of the returned
`ReconcilerAction`. -/

/-- A mutation issued by the SetReconciler. -/
inductive SetAction where
  | deletePool (name : String)
  | patchPool (name : String) (body : GratefulSetPool)
  deriving DecidableEq

/-- `gs.rs:182-200`: the scale-down target selection.  The fold at
`gs.rs:184-193` builds `updated` when an old pool has positive replicas but
then executes `return None`, discarding it — so the fold is constantly
`None` and the current pool is always chosen. -/
def gsDeltaPool (old_pools : List GratefulSetPool) (cur_pool : GratefulSetPool) :
    GratefulSetPool :=
  (old_pools.foldl
      (fun acc x =>
        acc.orElse fun _ =>
          let reps := x.spec.sts_spec.replicas.getD 1
          if 0 < reps then
            let _updated :=
              { x with spec :=
                  { x.spec with sts_spec :=
                      { x.spec.sts_spec with replicas := some (reps - 1) } } }
            none
          else none)
      none).getD
    { cur_pool with spec := delta_replicas (-1) cur_pool.spec }

/-- `manager.rs:125-144`: the same selection in the other revision of the
reconciler, where the fold does `return Some(updated)` — the first old pool
in list order with positive replicas is chosen, else the current pool is
decremented. -/
def managerDeltaPool (old_pools : List GratefulSetPool) (cur_pool : GratefulSetPool) :
    GratefulSetPool :=
  (old_pools.foldl
      (fun acc x =>
        acc.orElse fun _ =>
          let reps := x.spec.sts_spec.replicas.getD 1
          if 0 < reps then
            some
              { x with spec :=
                  { x.spec with sts_spec :=
                      { x.spec.sts_spec with replicas := some (reps - 1) } } }
          else none)
      none).getD
    { cur_pool with spec := delta_replicas (-1) cur_pool.spec }

/-- `gs.rs::reconcile` (`gs.rs:82-240`).  The branch structure, the fold that
classifies pools into `(old_pools, cur_pool)`, and all four exits are
translated clause by clause.  `cur.replicas > Some(0)` uses Rust's derived
`Option` order (`None < Some(_)`), i.e. holds iff `replicas` is `Some x`
with `0 < x`. -/
def gsReconcile (H : List HTok → Nat) (gs : GratefulSet)
    (listed : List GratefulSetPool) : List SetAction × Option Nat :=
  let want0 := pool H gs.spec
  let want : GratefulSetPool :=
    { want0 with spec :=
        { want0.spec with sts_spec :=
            { want0.spec.sts_spec with replicas := some 0 } } }
  let desired_hash := checksum H want.spec.sts_spec
  let folded :=
    listed.foldl
      (fun acc p =>
        if checksum H p.spec.sts_spec ≠ desired_hash then (acc.1 ++ [p], acc.2)
        else (acc.1, p))
      (([] : List GratefulSetPool), want)
  let old_pools := folded.1
  let cur_pool := folded.2
  if cur_pool.spec.sts_spec = gs.spec.sts_spec then
    (old_pools.map fun p => SetAction.deletePool (metaNameOf p.metadata), none)
  else if 0 < cur_pool.spec.sts_spec.replicas.getD 0
      ∧ poolWithoutReplicas want.spec = poolWithoutReplicas cur_pool.spec then
    let diff :=
      { cur_pool with spec :=
          { want.spec with sts_spec :=
              { want.spec.sts_spec with
                replicas := cur_pool.spec.sts_spec.replicas } } }
    ([SetAction.patchPool (metaNameOf cur_pool.metadata) diff], none)
  else
    let total_ready :=
      old_pools.foldl
        (fun t x => t + ((x.status.bind fun s => s.sts_status.ready_replicas).getD 0))
        ((cur_pool.status.bind fun s => s.sts_status.ready_replicas).getD 0)
    let total_desired := gs.spec.sts_spec.replicas.getD 1
    if total_desired ≤ total_ready then
      let delta_pool := gsDeltaPool old_pools cur_pool
      ([SetAction.patchPool (metaNameOf delta_pool.metadata) delta_pool], some 300)
    else
      let diff := { cur_pool with spec := delta_replicas 1 cur_pool.spec }
      ([SetAction.patchPool (metaNameOf diff.metadata) diff], some 300)

/-- `manager.rs::error_policy` (`manager.rs:186-191`): every reconcile error
requeues after 60 seconds. -/
def error_policy : Option Nat := some 60

/-! ## PoolReconciler (`gsp.rs::reconcile`, `gsp.rs:211-338`)

`found?` is what `sts.get` would return (`none` = not found).  The source
also issues a `configmaps.get` on the scale-up path whose result
(`should_update`, `gsp.rs:292-297`) is never read, and computes
`found_ready` (`gsp.rs:266-277`) that is never read; neither influences any
output, so neither appears below.  The scale-down tail (`gsp.rs:323-332`)
is comments only and falls through to the 5-minute requeue. -/

/-- A mutation issued by the PoolReconciler. -/
inductive PoolAction where
  | patchSts (name : String) (spec : StatefulSetSpec)
  | patchConfigMap (name : String) (cm : ConfigMap)
  deriving DecidableEq

/-- `gsp.rs::reconcile` (`gsp.rs:211-338`), translated clause by clause.
`sts.get(...).await?` at `gsp.rs:220` propagates a not-found as an error
(the `TODO` there concedes 404 matching is missing), so `found? = none`
yields `Except.error`. -/
def gspReconcile (gsp : GratefulSetPool) (found? : Option StatefulSet) :
    Except Unit (List PoolAction × Option Nat) :=
  match found? with
  | none => Except.error ()
  | some found =>
    if with_lock gsp.spec = found.spec.getD {} then
      Except.ok ([], none)
    else
      let desired_sans_replicas := without_replicas (with_lock gsp.spec)
      if without_replicas (found.spec.getD {}) ≠ desired_sans_replicas then
        let prev_replicas := found.spec.bind fun x => x.replicas
        Except.ok
          ([PoolAction.patchSts (metaNameOf gsp.metadata)
              { desired_sans_replicas with replicas := prev_replicas }], none)
      else
        let desired_replicas := gsp.spec.sts_spec.replicas.getD 1
        let found_spec_replicas := (found.spec.bind fun x => x.replicas).getD 1
        let found_current_replicas :=
          (found.status.bind fun x => x.current_replicas).getD 0
        if found_spec_replicas ≠ found_current_replicas then
          Except.ok ([], none)
        else if found_spec_replicas < desired_replicas then
          let locks := configmap gsp.spec (gsp.metadata.namespace_.getD "")
          Except.ok
            ([PoolAction.patchConfigMap (metaNameOf locks.metadata) locks,
              PoolAction.patchSts (metaNameOf gsp.metadata) desired_sans_replicas],
             none)
        else
          Except.ok ([], some 300)

/-! ## Concrete fixtures

`H0` is a concrete stand-in for `DefaultHasher` used to instantiate
hasher-parametric statements; the fixtures below are small but full
reconciler inputs. -/

/-- A concrete hash function for witnesses: the stream length. -/
def H0 : List HTok → Nat := fun toks => toks.length

/-- A template with one replica. -/
def stsA : StatefulSetSpec := { replicas := some 1, service_name := "svc" }

/-- A template whose immutable fields differ from `stsA` (extra
`match_labels` entry), with two replicas. -/
def stsB : StatefulSetSpec :=
  { replicas := some 2
    service_name := "svc"
    selector := { match_labels := some [("a", "b")] } }

/-- A `GratefulSet` named `db` desiring one replica of `stsA`. -/
def gs0 : GratefulSet :=
  { metadata := { name := some "db", namespace_ := some "default" }
    spec := { name := "db", sts_spec := stsA } }

/-- An old pool (`stsB` revision) with `replicas = 2`, two of them ready. -/
def oldPool0 : GratefulSetPool :=
  { metadata := { name := some "db-old", namespace_ := some "default" }
    spec := { name := "db-old", sts_spec := stsB }
    status := some { sts_status :=
      { current_replicas := some 2, ready_replicas := some 2, replicas := 2 } } }

/-- An old pool named `db-b` with one replica. -/
def oldPoolB : GratefulSetPool :=
  { metadata := { name := some "db-b" }
    spec := { name := "db-b", sts_spec := stsB } }

/-- An old pool named `db-a` (lexicographically before `db-b`) with one
replica. -/
def oldPoolA : GratefulSetPool :=
  { metadata := { name := some "db-a" }
    spec := { name := "db-a"
              sts_spec := { stsB with replicas := some 1 } } }

/-- The current pool for `gs0`: its template equals `gs0`'s. -/
def curPool0 : GratefulSetPool :=
  { metadata := { name := some "db-4", namespace_ := some "default" }
    spec := { name := "db-4", sts_spec := stsA }
    status := some { sts_status :=
      { current_replicas := some 1, ready_replicas := some 1, replicas := 1 } } }

/-- A pod spec with one application container. -/
def pod6 : PodSpec := { containers := [{ name := "app" }] }

/-- A pool spec named `db-ab` whose template has a pod spec. -/
def gspSpec6 : GratefulSetPoolSpec :=
  { name := "db-ab", sts_spec := { template := { spec := some pod6 } } }

/-- A pool template for the PoolReconciler fixtures: one desired replica,
pod spec present. -/
def stsT : StatefulSetSpec :=
  { replicas := some 1
    service_name := "svc"
    template := { spec := some pod6 } }

/-- A `GratefulSetPool` desiring one replica of `stsT`. -/
def gsp3 : GratefulSetPool :=
  { metadata := { name := some "db-4", namespace_ := some "default" }
    spec := { name := "db-4", sts_spec := stsT } }

/-- The observed StatefulSet for `gsp3`: the lease-injected spec with two
replicas, rollout settled (`spec.replicas = status.current_replicas`), both
ready — exactly the scale-down situation (`desired 1 < observed 2`). -/
def sts3 : StatefulSet :=
  { metadata := { name := some "db-4" }
    spec := some { with_lock gsp3.spec with replicas := some 2 }
    status := some
      { current_replicas := some 2, ready_replicas := some 2, replicas := 2 } }

/-- Resource requirements: 1Gi limit, 1Gi request. -/
def rr1 : ResourceRequirements :=
  { limits := some [("storage", "1Gi")], requests := some [("storage", "1Gi")] }

/-- Resource requirements: 1Gi limit, 2Gi request. -/
def rr2 : ResourceRequirements :=
  { limits := some [("storage", "1Gi")], requests := some [("storage", "2Gi")] }

/-- A volume-claim template with `rr1`. -/
def pvcR1 : PersistentVolumeClaim :=
  { metadata := { name := some "data" }, spec := some { resources := some rr1 } }

/-- The same volume-claim template with `rr2`: only
`spec.resources.requests` differs. -/
def pvcR2 : PersistentVolumeClaim :=
  { metadata := { name := some "data" }, spec := some { resources := some rr2 } }

/-- A StatefulSet spec with volume-claim template `pvcR1`. -/
def stsR1 : StatefulSetSpec :=
  { service_name := "svc", volume_claim_templates := some [pvcR1] }

/-- `stsR1` with the claim's `spec.resources.requests` perturbed. -/
def stsR2 : StatefulSetSpec :=
  { service_name := "svc", volume_claim_templates := some [pvcR2] }

/-- `stsA` with the mutable dimensions (`replicas`, `template`,
`update_strategy`) all changed. -/
def stsA' : StatefulSetSpec :=
  { stsA with
    replicas := some 7
    template := { spec := some pod6 }
    update_strategy := some { type_ := some "RollingUpdate" } }

/-- A pool spec with three desired replicas. -/
def cm8spec : GratefulSetPoolSpec :=
  { name := "db-4", sts_spec := { stsA with replicas := some 3 } }

/-- A pool spec with `replicas` unset. -/
def s10 : GratefulSetPoolSpec :=
  { name := "db-4", sts_spec := { stsA with replicas := none } }

/-- A pool spec with one replica. -/
def s11 : GratefulSetPoolSpec := { name := "db-4", sts_spec := stsA }

/-! ## Shared lemmas -/

/-- The revision checksum never reads `replicas`: overwriting it leaves the
token stream, hence the checksum, unchanged. -/
theorem checksum_set_replicas (H : List HTok → Nat) (s : StatefulSetSpec)
    (r : Option Int) : checksum H { s with replicas := r } = checksum H s := rfl

/-! ## The claims -/

/-- C1: the claim says `GratefulSetSpec::pool` labels the Pool with
`owner.pikach.us = <parent GratefulSet name>`.  The code (`gs.rs:60`) inserts
the freshly built *pool* name `<parent>-<hex>` instead, so the selector
`owner.pikach.us=<parent-name>` used at `gs.rs:90` can never match: with
parent name `db` the label value is `db-4`, not `db`. -/
theorem claim1_pool_label_is_pool_name :
    ((pool H0 gs0.spec).metadata.labels.getD []).lookup "owner.pikach.us"
        = some (metaNameOf (pool H0 gs0.spec).metadata)
      ∧ metaNameOf (pool H0 gs0.spec).metadata = "db-4"
      ∧ gs0.spec.name = "db"
      ∧ ((pool H0 gs0.spec).metadata.labels.getD []).lookup "owner.pikach.us"
          ≠ some gs0.spec.name := by
  decide

/-- C2: the claim says the scale-down decrement targets an old Pool with
positive replicas whenever one exists (lexicographically smallest name as
tiebreak).  In `gs.rs` the selection fold discards the `updated` old pool
(`gs.rs:191` `return None`), so with old pool `db-old` at `replicas = 2` and
2 ready against 1 desired, the patch goes to the current pool `db-4`, not to
`db-old`.  In the `manager.rs` revision the fold does return the pool, but it
picks the *first* old pool in list order: with `[db-b, db-a]` it patches
`db-b` although `db-a < db-b`. -/
theorem claim2_scale_down_decrements_current_not_old :
    ((gsReconcile H0 gs0 [oldPool0]).1.map fun a =>
        match a with
        | SetAction.deletePool n => n
        | SetAction.patchPool n _ => n) = ["db-4"]
      ∧ metaNameOf oldPool0.metadata = "db-old"
      ∧ oldPool0.spec.sts_spec.replicas = some 2
      ∧ (gsReconcile H0 gs0 [oldPool0]).2 = some 300
      ∧ (managerDeltaPool [oldPoolB, oldPoolA] curPool0).metadata.name = some "db-b"
      ∧ oldPoolA.metadata.name = some "db-a"
      ∧ oldPoolA.spec.sts_spec.replicas = some 1
      ∧ "db-a".toList < "db-b".toList := by
  decide

set_option maxRecDepth 16384 in
/-- C3: the claim says a PoolReconciler scale-down step first removes the
highest-ordinal lease key and patches `spec.replicas` only after readiness
drops.  The scale-down branch of `gsp.rs::reconcile` (`gsp.rs:323-332`) is
comments only: on a settled scale-down input (desired 1, observed
spec/current/ready all 2) the reconcile issues *no* ConfigMap mutation and
*no* StatefulSet patch, returning only the 5-minute requeue. -/
theorem claim3_scale_down_step_issues_no_mutation :
    gsp3.spec.sts_spec.replicas = some 1
      ∧ (sts3.spec.bind fun s => s.replicas) = some 2
      ∧ (sts3.status.bind fun s => s.current_replicas) = some 2
      ∧ (sts3.status.bind fun s => s.ready_replicas) = some 2
      ∧ gspReconcile gsp3 (some sts3) = Except.ok ([], some 300) :=
  ⟨rfl, rfl, rfl, rfl, by rfl⟩

/-- C4: the claim says a missing underlying StatefulSet is treated as "needs
create" (create with the lease-injected spec, requeue immediately).  The
code propagates the not-found from `sts.get(...).await?` (`gsp.rs:220`) as a
reconcile error for every pool; no create is ever issued (the embedding has
no create action because the source has no create call). -/
theorem claim4_missing_statefulset_is_error (gsp : GratefulSetPool) :
    gspReconcile gsp none = Except.error () := rfl

/-- C5: the claim says perturbing a volume claim template's
`spec.resources.requests` changes the checksum for some pair.  It never
does: `gsp.rs:174` binds `reqs` to `r.limits`, so `limits` is hashed twice
and `requests` never enters the stream — two specs differing only in
`requests` produce identical token streams and identical checksums under
every hasher. -/
theorem claim5_requests_never_hashed :
    hashTokens stsR1 = hashTokens stsR2
      ∧ (∀ H : List HTok → Nat, checksum H stsR1 = checksum H stsR2)
      ∧ stsR1 ≠ stsR2
      ∧ (pvcR1.spec.bind fun s => s.resources.bind fun r => r.requests)
          ≠ (pvcR2.spec.bind fun s => s.resources.bind fun r => r.requests) := by
  have h : hashTokens stsR1 = hashTokens stsR2 := by decide
  exact ⟨h, fun H => by simp [checksum, h], by decide, by decide⟩

/-- C6: the claim says `with_lock` pushes a volume *named*
`pikach.us-locks` whose ConfigMap source is the pool's lease ConfigMap
`<pool-name>-lock`.  The code (`gsp.rs:80-86`) pushes a `Volume` with the
defaulted empty name and points its ConfigMap source at `lock_volume()`
(`pikach.us-locks`) instead of `configmap_name()` (`db-ab-lock`); the
`gsp-unlocker` init-container and its `/locks` mount are present as
claimed. -/
theorem claim6_lock_volume_misnamed :
    (((with_lock gspSpec6).template.spec.getD {}).init_containers.getD []).map
        (fun c => c.name) = ["gsp-unlocker"]
      ∧ (((with_lock gspSpec6).template.spec.getD {}).init_containers.getD []).map
          (fun c => c.volume_mounts)
          = [some [{ mount_path := lock_dir, name := lock_volume }]]
      ∧ (((with_lock gspSpec6).template.spec.getD {}).volumes.getD []).map
          (fun v => v.name) = [""]
      ∧ (((with_lock gspSpec6).template.spec.getD {}).volumes.getD []).map
          (fun v => v.config_map) = [some { name := some lock_volume }]
      ∧ lock_volume = "pikach.us-locks"
      ∧ configmap_name gspSpec6 = "db-ab-lock"
      ∧ ("" : String) ≠ lock_volume
      ∧ some lock_volume ≠ some (configmap_name gspSpec6) := by
  decide

/-- C7: the revision checksum is computed from `pod_management_policy`,
`revision_history_limit`, `selector`, `service_name` and
`volume_claim_templates` only, so two specs agreeing on those five fields —
i.e. differing only in `replicas`, `template` or `update_strategy` (status
is not part of the spec at all) — have equal checksums under every
hasher. -/
theorem claim7_checksum_ignores_mutable_fields (H : List HTok → Nat)
    (s1 s2 : StatefulSetSpec)
    (h1 : s1.pod_management_policy = s2.pod_management_policy)
    (h2 : s1.revision_history_limit = s2.revision_history_limit)
    (h3 : s1.selector = s2.selector)
    (h4 : s1.service_name = s2.service_name)
    (h5 : s1.volume_claim_templates = s2.volume_claim_templates) :
    checksum H s1 = checksum H s2 := by
  unfold checksum hashTokens
  rw [h1, h2, h3, h4, h5]

/-- Witness for C7: `stsA` and `stsA'` differ in `replicas`, `template` and
`update_strategy`, and their checksums agree. -/
theorem claim7_checksum_ignores_mutable_fields_witness :
    stsA.replicas ≠ stsA'.replicas
      ∧ stsA.template ≠ stsA'.template
      ∧ stsA.update_strategy ≠ stsA'.update_strategy
      ∧ checksum H0 stsA = checksum H0 stsA' :=
  ⟨by decide, by decide, by decide,
    claim7_checksum_ignores_mutable_fields H0 stsA stsA' rfl rfl rfl rfl rfl⟩

/-- C8: for a pool spec with `replicas = Some r` the derived lease ConfigMap
is named `<pool-name>-lock`, carries `r` entries, and its keys are exactly
the decimal ordinals `0 .. r-1` (empty when `r = 0`). -/
theorem claim8_configmap_name_and_keys (s : GratefulSetPoolSpec) (ns : String)
    (r : Int) (h : s.sts_spec.replicas = some r) :
    (configmap s ns).metadata.name = some (s.name ++ "-lock")
      ∧ ((configmap s ns).data.getD []).length = r.toNat
      ∧ ∀ k : String,
          k ∈ ((configmap s ns).data.getD []).map Prod.fst
            ↔ ∃ i : Nat, i < r.toNat ∧ k = (Int.ofNat i).repr := by
  refine ⟨rfl, ?_, ?_⟩
  · simp [configmap, h]
  · intro k
    simp only [configmap, h, Option.getD_some, List.map_map]
    constructor
    · intro hk
      rcases List.mem_map.mp hk with ⟨i, hi, hik⟩
      exact ⟨i, List.mem_range.mp hi, hik.symm⟩
    · rintro ⟨i, hi, rfl⟩
      exact List.mem_map.mpr ⟨i, List.mem_range.mpr hi, rfl⟩

/-- Witness for C8: the lease ConfigMap of `cm8spec` (3 desired replicas) is
`db-4-lock` with keys `0`, `1`, `2`. -/
theorem claim8_configmap_name_and_keys_witness :
    (configmap cm8spec "default").metadata.name = some (cm8spec.name ++ "-lock")
      ∧ ((configmap cm8spec "default").data.getD []).length = (3 : Int).toNat
      ∧ ("2" ∈ ((configmap cm8spec "default").data.getD []).map Prod.fst
          ↔ ∃ i : Nat, i < (3 : Int).toNat ∧ "2" = (Int.ofNat i).repr) := by
  have h := claim8_configmap_name_and_keys cm8spec "default" 3 rfl
  exact ⟨h.1, h.2.1, h.2.2 "2"⟩

/-- C9 counterexample: a SetReconciler invocation with no pending work (the
current Pool equals the template, no old Pools) returns `requeue_after =
None`, not the claimed 5 minutes. -/
theorem claim9_no_pending_work_counterexample :
    curPool0.spec.sts_spec = gs0.spec.sts_spec
      ∧ gsReconcile H0 gs0 [curPool0] = ([], none)
      ∧ (gsReconcile H0 gs0 [curPool0]).2 ≠ some 300 := by
  decide

/-- C9 as amended: reconcile errors requeue after 60 s (`manager.rs:186-191`),
and a successful SetReconciler invocation that finds no pending work returns
with *no* requeue (the 5-minute requeue follows only the scale patches). -/
theorem claim9_requeue_policy :
    error_policy = some 60
      ∧ ∀ (H : List HTok → Nat) (gs : GratefulSet) (p : GratefulSetPool),
          p.spec.sts_spec = gs.spec.sts_spec → gsReconcile H gs [p] = ([], none) := by
  refine ⟨rfl, fun H gs p h => ?_⟩
  simp [gsReconcile, pool, h, checksum_set_replicas]

/-- Witness for C9: the amended policy at `gs0` with its settled current
pool. -/
theorem claim9_requeue_policy_witness :
    error_policy = some 60 ∧ gsReconcile H0 gs0 [curPool0] = ([], none) :=
  ⟨claim9_requeue_policy.1, claim9_requeue_policy.2 H0 gs0 curPool0 rfl⟩

/-- C10: `delta_replicas` clamps at zero (`max(0, x + n)`), so a set replica
count never becomes negative, and `Option::map` leaves an unset `replicas`
unset, making the call a no-op there. -/
theorem claim10_delta_replicas_safe (s : GratefulSetPoolSpec) (n : Int) :
    (s.sts_spec.replicas = none → delta_replicas n s = s)
      ∧ ∀ r : Int, (delta_replicas n s).sts_spec.replicas = some r → 0 ≤ r := by
  constructor
  · intro h
    cases s with
    | mk nm sts =>
      cases sts
      simp_all [delta_replicas]
  · intro r hr
    cases hrep : s.sts_spec.replicas with
    | none => simp [delta_replicas, hrep] at hr
    | some x =>
      have hval : (delta_replicas n s).sts_spec.replicas
          = some (max 0 (wrap32 (x + n))) := by
        simp [delta_replicas, hrep]
      rw [hval] at hr
      rw [← Option.some.inj hr]
      exact le_max_left 0 _

/-- Witness for C10: a `None` replicas spec is untouched by
`delta_replicas(-5)`, and decrementing a 1-replica spec by 3 clamps to a
non-negative count. -/
theorem claim10_delta_replicas_safe_witness :
    s10.sts_spec.replicas = none
      ∧ delta_replicas (-5) s10 = s10
      ∧ (delta_replicas (-3) s11).sts_spec.replicas = some 0
      ∧ (0 : Int) ≤ 0 :=
  ⟨rfl, (claim10_delta_replicas_safe s10 (-5)).1 rfl, by decide,
    (claim10_delta_replicas_safe s11 (-3)).2 0 (by decide)⟩

end GratefulSetModel
